import Mathlib

/-!
Shallow embedding of `MultipleLifetimesAppWorker` (src/debugger/appWorker.ts)
from the vscode-react-native repository.

The class supervises at most one sandboxed app-worker process ("lifetime")
and a WebSocket to the React Native packager.  Its behaviour is modelled as
pure functions from an explicit state to a new state paired with a list of
observable effects (log calls, worker creation/stop, socket operations,
outbound sends, scheduled retries).  Asynchronous completions (the promise
returned by `singleLifetimeWorker.start()`, the result of `JSON.parse`,
`JSON.stringify`, the socket write) are modelled by parameters giving their
outcome, since they are produced by external collaborators.

Worker instances carry a `Nat` identifier in the model so that distinct
`ForkedAppWorker` objects can be told apart in the effect trace; the source
distinguishes them by object identity.
-/

namespace AppWorker

/-- Internal error codes from `src/common/error/internalErrorCode.ts` that
`MultipleLifetimesAppWorker` raises or logs. -/
inductive InternalErrorCode where
  | CannotAttachToPackagerCheckPackagerRunningOnPort
  | AnotherDebuggerConnectedToPackager
  | FailedToProcessMessageFromReactNativeApp
  | FailedToPrepareJSRuntimeEnvironment
  | FailedToSendMessageToTheReactNativeApp
  | ReconnectionToPackagerFailedCheckForErrorsOrRestartReactNative
  | DebuggingWontWorkReloadJSAndReconnect
  | SourcesStoragePathIsNullOrEmpty
deriving DecidableEq, Repr

/-- A parsed packager-socket message (`RNAppMessage` in the source).  `method`
is `none` when the JSON object has no `method` property; `id` is `none` when
there is no numeric `id` property (so `parseInt(message.id, 10)` yields NaN).
`rest` stands for all other properties of the object, so that "forwarded
unchanged" is expressible. -/
structure RNAppMessage where
  method : Option String
  id : Option Int
  rest : Nat
deriving DecidableEq, Repr

/-- A raw frame received on the packager socket: either text that fails
`JSON.parse` or text together with its parse result. -/
inductive RawMsg where
  | malformed (text : String)
  | parsed (text : String) (obj : RNAppMessage)
deriving DecidableEq, Repr

/-- JavaScript truthiness of the `method` property in the model: absent and
empty-string values are falsy. -/
def jsTruthy : Option String → Bool
  | none => false
  | some s => s ≠ ""

/-- Observable effects of the manager, in program order. -/
inductive MLEffect where
  | logVerbose (s : String)
  | workerCreate (id : Nat)
  | workerStart (id : Nat)
  | workerStop (id : Nat)
  | emitConnected (id : Nat) (ev : Nat)
  | sendReply (id : Option Int)
  | postToWorker (id : Nat) (obj : RNAppMessage)
  | logProcessError (text : String)
  | logPrepareError (obj : RNAppMessage)
  | logSendError (shown : String)
  | socketRemoveAllListeners
  | socketClose
  | socketSend (text : String)
  | rejectPending (code : InternalErrorCode)
  | logDisconnected
  | scheduleRetry (ms : Nat)
  | ensurePackagerCheck
  | downloadWorker
  | writeBootstrap
  | openSocket (retry : Bool)
deriving DecidableEq, Repr

/-- The mutable fields of `MultipleLifetimesAppWorker` relevant to the claims:
`worker` models `singleLifetimeWorker` (`none` = null), `socketSet` models
whether `socketToApp` has been assigned, and `nextId` is the model's supply
of fresh worker identifiers. -/
structure MLState where
  worker : Option Nat
  socketSet : Bool
  nextId : Nat
deriving DecidableEq, Repr

/-- `killWorker()`: if a lifetime exists, stop it and null the field. -/
def killWorker (st : MLState) : MLState × List MLEffect :=
  match st.worker with
  | none => (st, [])
  | some w => ({ st with worker := none }, [.workerStop w])

/-- `startNewWorkerLifetime()`: assigns a fresh `ForkedAppWorker` to
`singleLifetimeWorker`, logs, calls its `start()`, and on successful start
emits the "connected" event with the started payload.  `outcome` is the
result of the sandbox start: `some ev` = resolved with payload `ev`,
`none` = rejected.  On rejection the field stays assigned (the source never
clears it on failure); the rejection propagates to the caller. -/
def startNewWorkerLifetime (st : MLState) (outcome : Option Nat) :
    MLState × List MLEffect :=
  let wid := st.nextId
  let st' : MLState := { st with worker := some wid, nextId := st.nextId + 1 }
  (st',
    [.workerCreate wid,
     .logVerbose "A new app worker lifetime was created.",
     .workerStart wid] ++
    (match outcome with
     | some ev => [.emitConnected wid ev]
     | none => []))

/-- `parseInt(id, 10)` on the message's `id` property, restricted to the
integer-valued ids the protocol uses: an integer parses to itself and an
absent id gives NaN (`none`). -/
def jsParseIntId (id : Option Int) : Option Int := id

/-- `gotPrepareJSRuntime(message)`: starts a new lifetime; when its start
promise resolves, replies `{replyID: parseInt(message.id, 10)}`; when it
rejects, logs `FailedToPrepareJSRuntimeEnvironment` with the message. -/
def gotPrepareJSRuntime (st : MLState) (outcome : Option Nat)
    (msg : RNAppMessage) : MLState × List MLEffect :=
  let r := startNewWorkerLifetime st outcome
  match outcome with
  | some _ => (r.1, r.2 ++ [.sendReply (jsParseIntId msg.id)])
  | none => (r.1, r.2 ++ [.logPrepareError msg])

/-- Body of `onMessage` after a successful `JSON.parse`: dispatch on the
`method` property exactly as the if/else chain in the source. -/
def handleParsed (st : MLState) (text : String) (obj : RNAppMessage)
    (outcome : Option Nat) : MLState × List MLEffect :=
  if obj.method = some "prepareJSRuntime" then
    let r1 := killWorker st
    let r2 := gotPrepareJSRuntime r1.1 outcome obj
    (r2.1, r1.2 ++ r2.2)
  else if obj.method = some "$disconnected" then
    killWorker st
  else if jsTruthy obj.method then
    match st.worker with
    | some w => (st, [.postToWorker w obj])
    | none => (st, [])
  else
    (st, [.logVerbose
      ("The react-native app sent a message without specifying a method: "
        ++ text)])

/-- `onMessage(message)`: logs the raw text, then parses it.  A failing
`JSON.parse` throws inside the `try` block, which the `catch` converts to a
`FailedToProcessMessageFromReactNativeApp` log mentioning the offending
text, leaving the state untouched; no exception escapes the handler. -/
def onMessage (st : MLState) (raw : RawMsg) (outcome : Option Nat) :
    MLState × List MLEffect :=
  match raw with
  | .malformed text =>
      (st, [.logVerbose ("From RN APP: " ++ text), .logProcessError text])
  | .parsed text obj =>
      let r := handleParsed st text obj outcome
      (r.1, .logVerbose ("From RN APP: " ++ text) :: r.2)

/-- Processing of a whole sequence of packager-socket frames, threading the
state and concatenating the effect traces.  Each frame is paired with the
start outcome its (possible) new lifetime would have. -/
def processMessages (st : MLState) :
    List (RawMsg × Option Nat) → MLState × List MLEffect
  | [] => (st, [])
  | m :: rest =>
      let r1 := onMessage st m.1 m.2
      let r2 := processMessages r1.1 rest
      (r2.1, r1.2 ++ r2.2)

/-- The state of a freshly constructed manager: no lifetime, no socket. -/
def initState : MLState := { worker := none, socketSet := false, nextId := 0 }

/-- `stop()`: if `socketToApp` is set, remove its listeners and close it; if
`singleLifetimeWorker` is set, call its `stop()`.  Neither field is cleared
by `stop()` (only `killWorker` clears the worker field). -/
def stop (st : MLState) : MLState × List MLEffect :=
  (st,
    (if st.socketSet then [.socketRemoveAllListeners, .socketClose] else [])
    ++ (match st.worker with
        | some w => [.workerStop w]
        | none => []))

/-- `start(retryAttempt)`: first `ensurePackagerRunning` (the bounded
reachability check; `packagerRunning` is its outcome), rejecting with
`CannotAttachToPackagerCheckPackagerRunningOnPort` when it fails; then,
unless this is a retry, `downloadAndPatchDebuggerWorker` (download plus
bootstrap write); then `createSocketToApp(retryAttempt)`. -/
def start (retryAttempt : Bool) (packagerRunning : Bool) :
    Except InternalErrorCode (List MLEffect) :=
  if packagerRunning then
    .ok ([.ensurePackagerCheck]
      ++ (if retryAttempt then [] else [.downloadWorker, .writeBootstrap])
      ++ [.openSocket retryAttempt])
  else
    .error .CannotAttachToPackagerCheckPackagerRunningOnPort

/-- The socket "close" handler installed by `createSocketToApp`.  The
rate-limited block (`executionLimiter.execute` with key "onSocketClose.msg",
modelled by the `limiterAllows` oracle) rejects the pending start promise
with `AnotherDebuggerConnectedToPackager` when the socket's recorded
`_closeMessage` equals the known string, and logs the generic disconnect
notice; outside the limited block, `setTimeout` schedules `start(true)`
after 100 ms. -/
def closeHandler (limiterAllows : Bool) (closeMsg : Option String) :
    List MLEffect :=
  (if limiterAllows then
     (if closeMsg = some "Another debugger is already connected" then
        [.rejectPending .AnotherDebuggerConnectedToPackager]
      else [])
     ++ [.logDisconnected]
   else [])
  ++ [.scheduleRetry 100]

/-- JavaScript `a || b` on strings: the empty string is falsy. -/
def jsOr (a b : String) : String := if a = "" then b else a

/-- `sendMessageToApp(message)`: `stringified` starts as `""`; inside the
`try`, `JSON.stringify` either throws (`stringifyRes = none`, leaving
`stringified` empty) or yields text `s`, which is logged and written to the
socket (`sendOk` is whether `socketToApp.send` succeeds).  The `catch` logs
`FailedToSendMessageToTheReactNativeApp` with
`stringified || ("" + message)`, where `toStr` is the payload's default
string conversion.  No exception propagates to the caller. -/
def sendMessageToApp (stringifyRes : Option String) (sendOk : Bool)
    (toStr : String) : List MLEffect :=
  match stringifyRes with
  | none => [.logSendError (jsOr "" toStr)]
  | some s =>
      if sendOk then
        [.logVerbose ("To RN APP: " ++ s), .socketSend s]
      else
        [.logVerbose ("To RN APP: " ++ s), .logSendError (jsOr s toStr)]

/-- Literal text of `MultipleLifetimesAppWorker.WORKER_BOOTSTRAP`: the worker-environment bootstrap shim prepended to the debugger worker. -/
def WORKER_BOOTSTRAP : String :=
  "\n// Initialize some variables before react-native code would access them\nvar onmessage=null, self=global;\n// Cache Node\x27s original require as __debug__.require\nglobal.__debug__=\x7brequire: require\x7d;\n// avoid Node\x27s GLOBAL deprecation warning\nObject.defineProperty(global, \"GLOBAL\", \x7b\n    configurable: true,\n    writable: true,\n    enumerable: true,\n    value: global\n\x7d);\n// Prevent leaking process.versions from debugger process to\n// worker because pure React Native doesn\x27t do that and some packages as js-md5 rely on this behavior\nObject.defineProperty(process, \"versions\", \x7b\n    value: undefined\n\x7d);\n\nfunction getNativeModules() \x7b\n    var NativeModules;\n    try \x7b\n        // This approach is for old RN versions\n        NativeModules = global.require(\x27NativeModules\x27);\n    \x7d catch (err) \x7b\n        // ignore error and try another way for more recent RN versions\n        try \x7b\n            var nativeModuleId;\n            var modules = global.__r.getModules();\n            var ids = Object.keys(modules);\n            for (var i = 0; i < ids.length; i++) \x7b\n              if (modules[ids[i]].verboseName) \x7b\n                 var packagePath = new String(modules[ids[i]].verboseName);\n                 if (packagePath.indexOf(\"react-native/Libraries/BatchedBridge/NativeModules.js\") > 0) \x7b\n                   nativeModuleId = parseInt(ids[i], 10);\n                   break;\n                 \x7d\n              \x7d\n            \x7d\n          if (nativeModuleId) \x7b\n            NativeModules = global.__r(nativeModuleId);\n          \x7d\n        \x7d\n        catch (err) \x7b\n            // suppress errors\n        \x7d\n    \x7d\n    return NativeModules;\n\x7d\n\n// Originally, this was made for iOS only\nvar vscodeHandlers = \x7b\n    \x27vscode_reloadApp\x27: function () \x7b\n        var NativeModules = getNativeModules();\n        if (NativeModules) \x7b\n            NativeModules.DevMenu.reload();\n        \x7d\n    \x7d,\n    \x27vscode_showDevMenu\x27: function () \x7b\n        var NativeModules = getNativeModules();\n        if (NativeModules) \x7b\n            NativeModules.DevMenu.show();\n        \x7d\n    \x7d\n\x7d;\n\nprocess.on(\"message\", function (message) \x7b\n    if (message.data && vscodeHandlers[message.data.method]) \x7b\n        vscodeHandlers[message.data.method]();\n    \x7d else if(onmessage) \x7b\n        onmessage(message);\n    \x7d\n\x7d);\n\nvar postMessage = function(message)\x7b\n    process.send(message);\n\x7d;\n\nif (!self.postMessage) \x7b\n    self.postMessage = postMessage;\n\x7d\n\nvar importScripts = (function()\x7b\n    var fs=require(\x27fs\x27), vm=require(\x27vm\x27);\n    return function(scriptUrl)\x7b\n        var scriptCode = fs.readFileSync(scriptUrl, \"utf8\");\n        vm.runInThisContext(scriptCode, \x7bfilename: scriptUrl\x7d);\n    \x7d;\n\x7d)();"

/-- Literal text of `MultipleLifetimesAppWorker.CONSOLE_TRACE_PATCH`: overrides `console.trace` so stack traces go to stdout. -/
def CONSOLE_TRACE_PATCH : String :=
  "// Worker is ran as nodejs process, so console.trace() writes to stderr and it leads to error in native app\n// To avoid this console.trace() is overridden to print stacktrace via console.log()\n// Please, see Node JS implementation: https://github.com/nodejs/node/blob/master/lib/internal/console/constructor.js\nconsole.trace = (function() \x7b\n    return function() \x7b\n        try \x7b\n            var err = \x7b\n                name: \x27Trace\x27,\n                message: require(\x27util\x27).format.apply(null, arguments)\n                \x7d;\n            // Node uses 10, but usually it\x27s not enough for RN app trace\n            Error.stackTraceLimit = 30;\n            Error.captureStackTrace(err, console.trace);\n            console.log(err.stack);\n        \x7d catch (e) \x7b\n            console.error(e);\n        \x7d\n    \x7d;\n\x7d)();"

/-- Literal text of `MultipleLifetimesAppWorker.NODE_PROCESS_FINDING_PATCH`: hides the Node process identity from sandboxed code. -/
def NODE_PROCESS_FINDING_PATCH : String :=
  "// Worker is ran as nodejs process, so in some cases it tries to run metroRequire in nodejs context and it leads to error in native app\n// To avoid this need to hide an attributes which can issue a nodejs process in debugger worker\nvar objectToString = Object.prototype.toString;\nObject.prototype.toString = function() \x7b\n    if (this === process) \x7b\n        return \x27\x27;\n    \x7d else \x7b\n        return objectToString.call(this);\n    \x7d\n\x7d\n"

/-- Literal text of `MultipleLifetimesAppWorker.WORKER_DONE`: the completion-marker emitter appended last. -/
def WORKER_DONE : String :=
  "// Notify debugger that we\x27re done with loading\n// and started listening for IPC messages\npostMessage(\x7bworkerLoaded:true\x7d);"

/-- Literal text of `MultipleLifetimesAppWorker.FETCH_STUB`: the minimal fetch shim included only for Haul projects. -/
def FETCH_STUB : String :=
  "(function(self) \x7b\n        \x27use strict\x27;\n\n        if (self.fetch) \x7b\n          return\n        \x7d\n\n        self.fetch = fetch;\n\n        function fetch(url) \x7b\n            return new Promise((resolve, reject) => \x7b\n                var data = require(\"fs\").readFileSync(url, \x27utf8\x27);\n                resolve(\n                    \x7b\n                        text: function () \x7b\n                            return data;\n                        \x7d\n                    \x7d);\n            \x7d);\n        \x7d\n      \x7d)(global);"

/-- JavaScript `Array.prototype.join(sep)` over an array whose elements may
be `null`: `null` (and `undefined`) elements are rendered as the empty
string.  This is the join used on the patch list in
`downloadAndPatchDebuggerWorker`. -/
def jsJoin (sep : String) : List (Option String) → String
  | [] => ""
  | [x] => x.getD ""
  | x :: xs => x.getD "" ++ sep ++ jsJoin sep xs

/-- The `modifiedDebuggeeContent` computed by `downloadAndPatchDebuggerWorker`
and written over the downloaded worker file: the source joins
`[WORKER_BOOTSTRAP, CONSOLE_TRACE_PATCH, NODE_PROCESS_FINDING_PATCH,
isHaulProject ? FETCH_STUB : null, workerContent, WORKER_DONE]` with a
newline.  `workerContent` is the downloaded debugger-worker payload and
`isHaulProject` the result of `ReactNativeProjectHelper.isHaulProject`. -/
def modifiedDebuggeeContent (isHaulProject : Bool) (workerContent : String) :
    String :=
  jsJoin "\n"
    [some WORKER_BOOTSTRAP,
     some CONSOLE_TRACE_PATCH,
     some NODE_PROCESS_FINDING_PATCH,
     if isHaulProject then some FETCH_STUB else none,
     some workerContent,
     some WORKER_DONE]

/-- Plain newline-join of a list of strings (no `null` slots). -/
def joinStrings (sep : String) : List String → String
  | [] => ""
  | [x] => x
  | x :: xs => x ++ sep ++ joinStrings sep xs

/-- Bootstrap content as the spec's words describe it: the newline-joined
concatenation, in this order, of the bootstrap shim, the console-trace
patch, the process-identity patch, the fetch stub (included in the list if
and only if the project is a Haul project), the downloaded payload and the
completion marker.  Stated for comparison with `modifiedDebuggeeContent`. -/
def specBootstrapContent (isHaulProject : Bool) (workerContent : String) :
    String :=
  joinStrings "\n"
    ([WORKER_BOOTSTRAP, CONSOLE_TRACE_PATCH, NODE_PROCESS_FINDING_PATCH]
      ++ (if isHaulProject then [FETCH_STUB] else [])
      ++ [workerContent, WORKER_DONE])

/-- One step of lifetime bookkeeping over the effect trace: a created worker
becomes alive, a stopped worker stops being alive, every other effect is
irrelevant. -/
def stepAlive (s : List Nat) (e : MLEffect) : List Nat :=
  match e with
  | .workerCreate i => s ++ [i]
  | .workerStop i => s.erase i
  | _ => s

/-- The list of alive worker identifiers after running a trace from `s`. -/
def runAlive (s : List Nat) : List MLEffect → List Nat
  | [] => s
  | e :: tr => runAlive (stepAlive s e) tr

/-- `aliveBounded s tr` holds when, starting from alive-set `s`, at most one
worker is alive before and after every single effect of `tr`. -/
def aliveBounded (s : List Nat) : List MLEffect → Bool
  | [] => decide (s.length ≤ 1)
  | e :: tr => decide (s.length ≤ 1) && aliveBounded (stepAlive s e) tr

/-- The alive-set corresponding to a manager state: the worker referenced by
`singleLifetimeWorker`, if any. -/
def stAlive (st : MLState) : List Nat :=
  match st.worker with
  | none => []
  | some w => [w]

/-- Recogniser for `sendReply` effects (acknowledgements sent to the app). -/
def isSendReply : MLEffect → Bool
  | .sendReply _ => true
  | _ => false

/-- Recogniser for scheduled `start(true)` retry effects. -/
def isScheduleRetry : MLEffect → Bool
  | .scheduleRetry _ => true
  | _ => false

theorem stAlive_length_le (st : MLState) : (stAlive st).length ≤ 1 := by
  cases h : st.worker <;> simp [stAlive, h]

theorem aliveBounded_self (s : List Nat) (tr : List MLEffect) :
    aliveBounded s tr = (decide (s.length ≤ 1) && aliveBounded s tr) := by
  by_cases h : s.length ≤ 1 <;> cases tr <;> simp [aliveBounded, h]

theorem aliveBounded_append (s : List Nat) (t1 t2 : List MLEffect) :
    aliveBounded s (t1 ++ t2)
      = (aliveBounded s t1 && aliveBounded (runAlive s t1) t2) := by
  induction t1 generalizing s with
  | nil =>
      simpa [aliveBounded, runAlive] using aliveBounded_self s t2
  | cons e t1 ih =>
      simp [aliveBounded, runAlive, ih, Bool.and_assoc]

theorem runAlive_append (s : List Nat) (t1 t2 : List MLEffect) :
    runAlive s (t1 ++ t2) = runAlive (runAlive s t1) t2 := by
  induction t1 generalizing s with
  | nil => simp [runAlive]
  | cons e t1 ih => simp [runAlive, ih]

theorem onMessage_alive (st : MLState) (raw : RawMsg) (o : Option Nat) :
    aliveBounded (stAlive st) (onMessage st raw o).2 = true
    ∧ runAlive (stAlive st) (onMessage st raw o).2
        = stAlive (onMessage st raw o).1 := by
  cases raw with
  | malformed text =>
      constructor
      · simp [onMessage, aliveBounded, stepAlive, stAlive_length_le st]
      · simp [onMessage, runAlive, stepAlive]
  | parsed text obj =>
      by_cases h1 : obj.method = some "prepareJSRuntime"
      · cases hw : st.worker with
        | none =>
            cases o <;>
              constructor <;>
                simp [onMessage, handleParsed, h1, killWorker, hw,
                  gotPrepareJSRuntime, startNewWorkerLifetime, jsParseIntId,
                  aliveBounded, runAlive, stepAlive, stAlive]
        | some w =>
            cases o <;>
              constructor <;>
                simp [onMessage, handleParsed, h1, killWorker, hw,
                  gotPrepareJSRuntime, startNewWorkerLifetime, jsParseIntId,
                  aliveBounded, runAlive, stepAlive, stAlive]
      · by_cases h2 : obj.method = some "$disconnected"
        · cases hw : st.worker with
          | none =>
              constructor <;>
                simp [onMessage, handleParsed, h1, h2, killWorker, hw,
                  aliveBounded, runAlive, stepAlive, stAlive]
          | some w =>
              constructor <;>
                simp [onMessage, handleParsed, h1, h2, killWorker, hw,
                  aliveBounded, runAlive, stepAlive, stAlive]
        · by_cases h3 : jsTruthy obj.method
          · cases hw : st.worker with
            | none =>
                constructor <;>
                  simp [onMessage, handleParsed, h1, h2, h3, hw,
                    aliveBounded, runAlive, stepAlive, stAlive]
            | some w =>
                constructor <;>
                  simp [onMessage, handleParsed, h1, h2, h3, hw,
                    aliveBounded, runAlive, stepAlive, stAlive]
          · constructor <;>
              simp [onMessage, handleParsed, h1, h2, h3,
                aliveBounded, runAlive, stepAlive, stAlive_length_le st]

theorem processMessages_alive (msgs : List (RawMsg × Option Nat))
    (st : MLState) :
    aliveBounded (stAlive st) (processMessages st msgs).2 = true
    ∧ runAlive (stAlive st) (processMessages st msgs).2
        = stAlive (processMessages st msgs).1 := by
  induction msgs generalizing st with
  | nil =>
      exact ⟨by simp [processMessages, aliveBounded, stAlive_length_le st],
        by simp [processMessages, runAlive]⟩
  | cons m rest ih =>
      obtain ⟨h1, h2⟩ := onMessage_alive st m.1 m.2
      obtain ⟨g1, g2⟩ := ih (onMessage st m.1 m.2).1
      constructor
      · simp [processMessages, aliveBounded_append, h1, h2, g1]
      · simp [processMessages, runAlive_append, h2, g2]

/-- C1: over any sequence of packager-socket messages processed from the
initial state, at most one worker lifetime is alive before and after every
individual effect of the run (so never two at once), and a
`prepareJSRuntime` arriving while a lifetime `w` exists produces a trace in
which `w`'s stop strictly precedes the creation and start of the new
lifetime. -/
theorem c1_at_most_one_lifetime :
    (∀ msgs : List (RawMsg × Option Nat),
      aliveBounded [] (processMessages initState msgs).2 = true)
    ∧ (∀ (st : MLState) (text : String) (obj : RNAppMessage)
        (o : Option Nat) (w : Nat),
        st.worker = some w → obj.method = some "prepareJSRuntime" →
        ∃ tail, (onMessage st (.parsed text obj) o).2
          = [.logVerbose ("From RN APP: " ++ text), .workerStop w,
             .workerCreate st.nextId,
             .logVerbose "A new app worker lifetime was created.",
             .workerStart st.nextId] ++ tail) := by
  constructor
  · intro msgs
    exact (processMessages_alive msgs initState).1
  · intro st text obj o w hw hm
    cases o with
    | none =>
        exact ⟨[.logPrepareError obj],
          by simp [onMessage, handleParsed, hm, killWorker, hw,
            gotPrepareJSRuntime, startNewWorkerLifetime]⟩
    | some ev =>
        exact ⟨[.emitConnected st.nextId ev, .sendReply (jsParseIntId obj.id)],
          by simp [onMessage, handleParsed, hm, killWorker, hw,
            gotPrepareJSRuntime, startNewWorkerLifetime]⟩

/-- Witness for C1: a concrete state with a live lifetime 5 receiving a
concrete `prepareJSRuntime` message. -/
theorem c1_witness :
    (⟨some 5, true, 6⟩ : MLState).worker = some 5
    ∧ ∃ tail,
        (onMessage ⟨some 5, true, 6⟩
          (.parsed "t" ⟨some "prepareJSRuntime", some 42, 0⟩) (some 3)).2
          = [.logVerbose ("From RN APP: " ++ "t"), .workerStop 5,
             .workerCreate 6,
             .logVerbose "A new app worker lifetime was created.",
             .workerStart 6] ++ tail :=
  ⟨rfl, c1_at_most_one_lifetime.2 ⟨some 5, true, 6⟩ "t"
      ⟨some "prepareJSRuntime", some 42, 0⟩ (some 3) 5 rfl rfl⟩

/-- C2: a parsed `prepareJSRuntime` message with numeric id `n` whose new
lifetime starts successfully causes exactly one acknowledgement
`{replyID: n}` to be passed to `sendMessageToApp`, creates the lifetime and
emits "connected" with the start payload; if the lifetime start rejects, no
acknowledgement is sent and `FailedToPrepareJSRuntimeEnvironment` is logged
instead. -/
theorem c2_prepare_ack :
    ∀ (st : MLState) (text : String) (obj : RNAppMessage) (n : Int),
      obj.method = some "prepareJSRuntime" → obj.id = some n →
      (∀ ev : Nat,
        ((onMessage st (.parsed text obj) (some ev)).2.filter isSendReply
            = [.sendReply (some n)])
        ∧ .workerCreate st.nextId
            ∈ (onMessage st (.parsed text obj) (some ev)).2
        ∧ .emitConnected st.nextId ev
            ∈ (onMessage st (.parsed text obj) (some ev)).2)
      ∧ ((onMessage st (.parsed text obj) none).2.filter isSendReply = []
        ∧ .logPrepareError obj ∈ (onMessage st (.parsed text obj) none).2) := by
  intro st text obj n hm hid
  refine ⟨fun ev => ⟨?_, ?_, ?_⟩, ?_, ?_⟩ <;>
    cases hw : st.worker <;>
      simp [onMessage, handleParsed, hm, hid, killWorker, hw,
        gotPrepareJSRuntime, startNewWorkerLifetime, jsParseIntId,
        isSendReply, List.filter]

/-- Witness for C2: the end-to-end scenario of the spec, message id 42 with
no existing lifetime, successful start. -/
theorem c2_witness :
    (⟨some "prepareJSRuntime", some 42, 0⟩ : RNAppMessage).method
        = some "prepareJSRuntime"
    ∧ ((onMessage initState
          (.parsed "t" ⟨some "prepareJSRuntime", some 42, 0⟩) (some 7)).2.filter
            isSendReply = [.sendReply (some 42)]) :=
  ⟨rfl, ((c2_prepare_ack initState "t" ⟨some "prepareJSRuntime", some 42, 0⟩ 42
      rfl rfl).1 7).1⟩

/-- C3: every run of the socket close handler schedules exactly one
`start(true)` retry, after the fixed 100 ms delay, whatever the close
message and whatever the rate limiter decides; and a `start(true)` retry
never downloads or re-writes the bootstrap script. -/
theorem c3_reconnect_schedule :
    ∀ (limiterAllows : Bool) (closeMsg : Option String),
      (closeHandler limiterAllows closeMsg).filter isScheduleRetry
          = [.scheduleRetry 100]
      ∧ (∀ (packagerRunning : Bool) (effs : List MLEffect),
          start true packagerRunning = .ok effs →
          .downloadWorker ∉ effs ∧ .writeBootstrap ∉ effs) := by
  intro la cm
  constructor
  · by_cases h : cm = some "Another debugger is already connected" <;>
      cases la <;> simp [closeHandler, h, isScheduleRetry, List.filter]
  · intro pr effs h
    cases pr with
    | false => simp [start] at h
    | true =>
        simp [start] at h
        simp [← h]

/-- Witness for C3: the retry start with a reachable packager. -/
theorem c3_witness :
    start true true = .ok [.ensurePackagerCheck, .openSocket true]
    ∧ MLEffect.downloadWorker ∉ [MLEffect.ensurePackagerCheck, .openSocket true]
    ∧ MLEffect.writeBootstrap ∉ [MLEffect.ensurePackagerCheck, .openSocket true] :=
  ⟨rfl, (c3_reconnect_schedule true none).2 true _ rfl⟩

/-- C4: `start(false)` rejects with the packager-unreachable error when the
bounded check fails; when it succeeds it performs the reachability check,
then the download and bootstrap write, and only then opens the socket;
`start(true)` skips the download and write in both outcomes. -/
theorem c4_start_phases :
    start false false
        = .error .CannotAttachToPackagerCheckPackagerRunningOnPort
    ∧ start false true
        = .ok [.ensurePackagerCheck, .downloadWorker, .writeBootstrap,
               .openSocket false]
    ∧ start true true = .ok [.ensurePackagerCheck, .openSocket true]
    ∧ start true false
        = .error .CannotAttachToPackagerCheckPackagerRunningOnPort :=
  ⟨rfl, rfl, rfl, rfl⟩

/-- C5 counterexample: for a non-Haul project the written bootstrap is NOT
the newline-join of the five remaining pieces, because `Array.join` renders
the `null` fetch-stub slot as an empty string, leaving an extra blank line;
`specBootstrapContent` is the claim's five-piece join. -/
theorem c5_counterexample :
    modifiedDebuggeeContent false "PAYLOAD"
      ≠ specBootstrapContent false "PAYLOAD" := by
  intro h
  have h2 := congrArg String.length h
  have hn : ("\n" : String).length = 1 := rfl
  have he : ("" : String).length = 0 := rfl
  simp [modifiedDebuggeeContent, specBootstrapContent, jsJoin,
    joinStrings, Option.getD, String.length_append, hn, he] at h2

/-- C5 (amended): the written bootstrap equals the newline-join of the six
slots bootstrap-shim, console-trace patch, process-identity patch,
fetch-stub slot (the stub text for Haul projects, the empty string
otherwise), downloaded payload, completion marker — so every shim and patch
textually precedes the payload; for Haul projects this coincides with the
claim's join. -/
theorem c5_bootstrap_order :
    ∀ (isHaulProject : Bool) (workerContent : String),
      modifiedDebuggeeContent isHaulProject workerContent
        = WORKER_BOOTSTRAP ++ "\n" ++ CONSOLE_TRACE_PATCH ++ "\n"
          ++ NODE_PROCESS_FINDING_PATCH ++ "\n"
          ++ (if isHaulProject then FETCH_STUB else "") ++ "\n"
          ++ workerContent ++ "\n" ++ WORKER_DONE
      ∧ modifiedDebuggeeContent true workerContent
          = specBootstrapContent true workerContent := by
  intro ih wc
  constructor
  · cases ih <;>
      simp [modifiedDebuggeeContent, jsJoin, String.append_assoc,
        -String.reduceAppend]
  · simp [modifiedDebuggeeContent, specBootstrapContent, jsJoin, joinStrings,
      String.append_assoc, -String.reduceAppend]

/-- C6 counterexample: a parsed message whose `method` field is present but
is the empty string, received while lifetime 0 is live, is not forwarded to
the lifetime (the claim says any method value other than the two special
ones is forwarded); the source's truthiness test sends it to the
"no method" logging branch instead. -/
theorem c6_counterexample :
    (onMessage ⟨some 0, true, 1⟩ (.parsed "m" ⟨some "", none, 7⟩) none).2
      = [.logVerbose ("From RN APP: " ++ "m"),
         .logVerbose
           ("The react-native app sent a message without specifying a method: "
             ++ "m")]
    ∧ MLEffect.postToWorker 0 ⟨some "", none, 7⟩
        ∉ (onMessage ⟨some 0, true, 1⟩ (.parsed "m" ⟨some "", none, 7⟩) none).2 := by
  constructor
  · decide
  · decide

/-- C6 (amended): a parsed message whose `method` is a non-empty string
other than `prepareJSRuntime` and `$disconnected` is forwarded unchanged to
the live lifetime, and silently dropped (no error, no reply) when no
lifetime is live; a parsed message whose `method` field is absent (or
empty, hence falsy) is only logged verbosely and ignored. -/
theorem c6_forwarding :
    (∀ (st : MLState) (text : String) (obj : RNAppMessage) (o : Option Nat)
        (m : String),
      obj.method = some m → m ≠ "" → m ≠ "prepareJSRuntime" →
      m ≠ "$disconnected" →
      (∀ w, st.worker = some w →
        onMessage st (.parsed text obj) o
          = (st, [.logVerbose ("From RN APP: " ++ text), .postToWorker w obj]))
      ∧ (st.worker = none →
        onMessage st (.parsed text obj) o
          = (st, [.logVerbose ("From RN APP: " ++ text)])))
    ∧ (∀ (st : MLState) (text : String) (obj : RNAppMessage) (o : Option Nat),
        obj.method = none →
        onMessage st (.parsed text obj) o
          = (st, [.logVerbose ("From RN APP: " ++ text),
              .logVerbose
                ("The react-native app sent a message without specifying a method: "
                  ++ text)])) := by
  constructor
  · intro st text obj o m hm hne h1 h2
    constructor
    · intro w hw
      simp [onMessage, handleParsed, hm, h1, h2, jsTruthy, hne, hw]
    · intro hw
      simp [onMessage, handleParsed, hm, h1, h2, jsTruthy, hne, hw]
  · intro st text obj o hm
    simp [onMessage, handleParsed, hm, jsTruthy]

/-- Witness for C6 (amended): the custom method "custom" is forwarded to the
live lifetime 4. -/
theorem c6_witness :
    (⟨some "custom", none, 3⟩ : RNAppMessage).method = some "custom"
    ∧ ("custom" : String) ≠ ""
    ∧ onMessage ⟨some 4, true, 5⟩ (.parsed "x" ⟨some "custom", none, 3⟩) none
        = (⟨some 4, true, 5⟩,
           [.logVerbose ("From RN APP: " ++ "x"),
            .postToWorker 4 ⟨some "custom", none, 3⟩]) :=
  ⟨rfl, by decide,
    (c6_forwarding.1 ⟨some 4, true, 5⟩ "x" ⟨some "custom", none, 3⟩ none
        "custom" rfl (by decide) (by decide) (by decide)).1 4 rfl⟩

/-- C7: a frame that fails JSON parsing is handled entirely inside the
message handler: the state is unchanged, the only effects are the verbose
echo and a process-error log mentioning the offending text, and processing
of all subsequent frames of the connection is exactly as if the bad frame
had never arrived. -/
theorem c7_malformed_recovery :
    ∀ (st : MLState) (text : String) (o : Option Nat)
      (msgs : List (RawMsg × Option Nat)),
      onMessage st (.malformed text) o
        = (st, [.logVerbose ("From RN APP: " ++ text), .logProcessError text])
      ∧ processMessages st ((.malformed text, o) :: msgs)
          = ((processMessages st msgs).1,
             [.logVerbose ("From RN APP: " ++ text), .logProcessError text]
               ++ (processMessages st msgs).2) := by
  intro st text o msgs
  exact ⟨rfl, by simp [processMessages, onMessage]⟩

/-- C8 counterexample: a close carrying the known "Another debugger is
already connected" message that arrives while the 10-second execution
limiter suppresses the rate-limited block produces no named condition at
all — the handler only schedules the retry — refuting the claim that every
such close rejects the pending start promise with
`AnotherDebuggerConnectedToPackager`. -/
theorem c8_counterexample :
    closeHandler false (some "Another debugger is already connected")
      = [.scheduleRetry 100]
    ∧ MLEffect.rejectPending .AnotherDebuggerConnectedToPackager
        ∉ closeHandler false (some "Another debugger is already connected") := by
  constructor
  · rfl
  · decide

/-- C8 (amended): when the rate-limited block runs (the execution limiter
with key "onSocketClose.msg" and a 10-second window does not suppress it),
the close handler rejects the pending start promise with
`AnotherDebuggerConnectedToPackager` exactly when the recorded close
message is the known "Another debugger is already connected" string; for
any other close message that named condition is never raised, whatever the
limiter decides. -/
theorem c8_another_debugger :
    ∀ (limiterAllows : Bool) (closeMsg : Option String),
      (limiterAllows = true →
        (MLEffect.rejectPending .AnotherDebuggerConnectedToPackager
            ∈ closeHandler limiterAllows closeMsg
          ↔ closeMsg = some "Another debugger is already connected"))
      ∧ (closeMsg ≠ some "Another debugger is already connected" →
          MLEffect.rejectPending .AnotherDebuggerConnectedToPackager
            ∉ closeHandler limiterAllows closeMsg) := by
  intro la cm
  constructor
  · intro hla
    subst hla
    by_cases h : cm = some "Another debugger is already connected" <;>
      simp [closeHandler, h]
  · intro h
    cases la <;> simp [closeHandler, h]

/-- Witness for C8: the known close string raises the named condition, the
string "app closed" does not. -/
theorem c8_witness :
    MLEffect.rejectPending .AnotherDebuggerConnectedToPackager
        ∈ closeHandler true (some "Another debugger is already connected")
    ∧ (some "app closed" : Option String)
        ≠ some "Another debugger is already connected"
    ∧ MLEffect.rejectPending .AnotherDebuggerConnectedToPackager
        ∉ closeHandler true (some "app closed") :=
  ⟨((c8_another_debugger true
      (some "Another debugger is already connected")).1 rfl).mpr rfl,
   by decide,
   (c8_another_debugger true (some "app closed")).2 (by decide)⟩

/-- C9: `sendMessageToApp` never lets an exception reach its caller: a
serialization failure logs the payload's default string conversion (since
`stringified` is still empty), a socket-send failure logs the serialized
text, and a successful send writes the serialized text to the socket. -/
theorem c9_send_error_handling :
    ∀ (toStr s : String), s ≠ "" →
      sendMessageToApp none true toStr = [.logSendError toStr]
      ∧ sendMessageToApp none false toStr = [.logSendError toStr]
      ∧ sendMessageToApp (some s) false toStr
          = [.logVerbose ("To RN APP: " ++ s), .logSendError s]
      ∧ sendMessageToApp (some s) true toStr
          = [.logVerbose ("To RN APP: " ++ s), .socketSend s] := by
  intro toStr s hs
  refine ⟨rfl, rfl, ?_, rfl⟩
  simp [sendMessageToApp, jsOr, hs]

/-- Witness for C9: a failing serialization logs the default conversion, a
failing send logs the serialized text. -/
theorem c9_witness :
    ("1" : String) ≠ ""
    ∧ sendMessageToApp none true "[object Object]"
        = [.logSendError "[object Object]"]
    ∧ sendMessageToApp (some "1") false "[object Object]"
        = [.logVerbose ("To RN APP: " ++ "1"), .logSendError "1"] :=
  ⟨by decide,
   (c9_send_error_handling "[object Object]" "1" (by decide)).1,
   (c9_send_error_handling "[object Object]" "1" (by decide)).2.2.1⟩

/-- C10 counterexample: with a socket assigned and lifetime 0 live, a second
`stop()` does perform a second socket close and a second lifetime `stop()`
invocation (the claim says the second call performs neither), because
`stop()` clears neither field. -/
theorem c10_counterexample :
    MLEffect.socketClose ∈ (stop (stop ⟨some 0, true, 1⟩).1).2
    ∧ MLEffect.workerStop 0 ∈ (stop (stop ⟨some 0, true, 1⟩).1).2 := by
  constructor
  · decide
  · decide

/-- C10 (amended): calling `stop()` twice produces no error and the
manager's state after the second call equals the state after the first; the
second call repeats exactly the first call's teardown invocations (listener
removal, socket close, lifetime stop on the still-assigned references)
rather than performing none. -/
theorem c10_stop_repeat :
    ∀ st : MLState,
      (stop (stop st).1).1 = (stop st).1
      ∧ (stop (stop st).1).2 = (stop st).2 := by
  intro st
  exact ⟨rfl, rfl⟩

end AppWorker
